import Mathlib

/-!
Shallow embedding of the Plane project-management client
(`src/everything/src/tools/*.py`): seven operations that parse a JSON
parameter blob, issue HTTP requests against a Plane server, and return a
result string.

Modelling conventions:
* A parsed JSON value is a `Json` tree (integers only; the claims never
  involve floating-point numbers).  A parameter blob is either malformed
  (raising `json.JSONDecodeError` in the source, which every operation
  catches) or a parsed JSON object, given as its association list with
  Python-dict key uniqueness assumed where relevant.
* The HTTP layer is an explicit environment: each request either yields a
  response (status code plus a body already decoded to the per-endpoint
  shape the source reads out of `.json()`) or a transport failure
  (`requests.RequestException`, carrying the text of `str(e)`).
* Every operation returns the result string together with the list of HTTP
  requests it issued, in order, so that claims of the form "no HTTP call is
  made" are statable.
* Character-class operations (`[A-Za-z]`, `\d`, `.upper()`, `.title()`)
  are modelled over ASCII, matching the modelled input space.
-/

/-- A JSON value, as produced by `json.loads` (numbers restricted to
integers, which is all the claims exercise). -/
inductive Json where
  | null
  | bool (b : Bool)
  | num (n : Int)
  | str (s : String)
  | arr (elts : List Json)
  | obj (fields : List (String × Json))
  deriving Repr

mutual
/-- Structural equality of JSON values, Python `==` on values decoded by
`json.loads`. -/
def jsonBeq : Json → Json → Bool
  | .null, .null => true
  | .bool a, .bool b => a == b
  | .num a, .num b => a == b
  | .str a, .str b => a == b
  | .arr a, .arr b => jsonBeqList a b
  | .obj a, .obj b => jsonBeqFields a b
  | _, _ => false

/-- Elementwise equality of JSON lists. -/
def jsonBeqList : List Json → List Json → Bool
  | [], [] => true
  | a :: as1, b :: bs => jsonBeq a b && jsonBeqList as1 bs
  | _, _ => false

/-- Entrywise equality of JSON objects (insertion order respected, as in
the association-list rendering). -/
def jsonBeqFields : List (String × Json) → List (String × Json) → Bool
  | [], [] => true
  | (ka, va) :: as1, (kb, vb) :: bs => ka == kb && jsonBeq va vb && jsonBeqFields as1 bs
  | _, _ => false
end

instance : BEq Json := ⟨jsonBeq⟩

/-- Python truthiness of a JSON-derived value: `None`, `False`, `0`, `""`,
`[]` and `{}` are falsy, everything else truthy. -/
def truthy : Json → Bool
  | .null => false
  | .bool b => b
  | .num n => n != 0
  | .str s => !(s == "")
  | .arr xs => !xs.isEmpty
  | .obj kvs => !kvs.isEmpty

/-- `d.get(k)` on a Python dict rendered as an association list. -/
def jget (kvs : List (String × Json)) (k : String) : Option Json :=
  (kvs.find? (fun kv => kv.1 == k)).map (fun kv => kv.2)

/-- `d.get(k, default)`. -/
def jgetD (kvs : List (String × Json)) (k : String) (d : Json) : Json :=
  (jget kvs k).getD d

/-- `k in d`. -/
def hasKey (kvs : List (String × Json)) (k : String) : Bool :=
  kvs.any (fun kv => kv.1 == k)

/-- Truthiness of `d.get(k)` (missing key counts as falsy `None`). -/
def getTruthy (kvs : List (String × Json)) (k : String) : Bool :=
  match jget kvs k with
  | some v => truthy v
  | none => false

/-- `d.pop(k)` composed over a dict with unique keys: remove the entry. -/
def eraseKey (kvs : List (String × Json)) (k : String) : List (String × Json) :=
  kvs.filter (fun kv => !(kv.1 == k))

/-- `d[k] = v` on a Python dict: overwrite in place if the key exists,
otherwise append (insertion order). -/
def setKey (kvs : List (String × Json)) (k : String) (v : Json) : List (String × Json) :=
  if hasKey kvs k then kvs.map (fun kv => if kv.1 == k then (k, v) else kv)
  else kvs ++ [(k, v)]

mutual
/-- Python `repr` of a JSON-derived value (string-escape subtleties elided;
no claim evaluates `repr` on a string containing quotes). -/
def pyRepr : Json → String
  | .null => "None"
  | .bool true => "True"
  | .bool false => "False"
  | .num n => toString n
  | .str s => "'" ++ s ++ "'"
  | .arr xs => "[" ++ String.intercalate ", " (pyReprList xs) ++ "]"
  | .obj kvs => "\x7b" ++ String.intercalate ", " (pyReprFields kvs) ++ "\x7d"

/-- `repr` mapped over a list of values. -/
def pyReprList : List Json → List String
  | [] => []
  | x :: xs => pyRepr x :: pyReprList xs

/-- `repr` mapped over dict entries. -/
def pyReprFields : List (String × Json) → List String
  | [] => []
  | (k, v) :: xs => ("'" ++ k ++ "': " ++ pyRepr v) :: pyReprFields xs
end

/-- Python `str()` of a JSON-derived value, as used by f-string
interpolation. -/
def pyStr : Json → String
  | .str s => s
  | v => pyRepr v

/-- ASCII upper-casing, Python's `str.upper()` on the modelled input
space. -/
def asciiUpper (s : String) : String :=
  String.mk (s.data.map Char.toUpper)

/-- Worker for `str.title()`: upper-case a letter that follows a
non-letter, lower-case a letter that follows a letter. -/
def pyTitleGo : Bool → List Char → List Char
  | _, [] => []
  | prevAlpha, c :: cs =>
    if c.isAlpha then
      (if prevAlpha then c.toLower else c.toUpper) :: pyTitleGo true cs
    else c :: pyTitleGo false cs

/-- Python `str.title()` on ASCII strings. -/
def pyTitle (s : String) : String :=
  String.mk (pyTitleGo false s.data)

/-- Digit run to its decimal value, Python `int()` on a digit string. -/
def digitsToNat (ds : List Char) : Nat :=
  ds.foldl (fun a c => a * 10 + (c.toNat - '0'.toNat)) 0

/-- `re.match(r"([A-Za-z]+)-(\d+)", s)`: an (unanchored-at-the-end) match
at the start of the string.  Backtracking forces group 1 to be exactly the
maximal leading letter run (a shorter run would be followed by a letter,
not by the required hyphen), and the greedy `\d+` captures the maximal
digit run after the hyphen.  Returns the two captured groups, the number
already converted by `int()`. -/
def matchIssueCode (s : String) : Option (String × Nat) :=
  let cs := s.data
  let letters := cs.takeWhile Char.isAlpha
  if letters.isEmpty then none
  else
    match cs.drop letters.length with
    | '-' :: rest =>
      let digits := rest.takeWhile Char.isDigit
      if digits.isEmpty then none
      else some (String.mk letters, digitsToNat digits)
    | _ => none

/-- A lower-case hexadecimal digit, the class `[0-9a-f]`. -/
def isLowerHex (c : Char) : Bool :=
  c.isDigit || ('a' ≤ c && c ≤ 'f')

/-- Consume exactly `n` lower-hex characters. -/
def hexRun : Nat → List Char → Option (List Char)
  | 0, cs => some cs
  | n + 1, c :: cs => if isLowerHex c then hexRun n cs else none
  | _ + 1, [] => none

/-- Consume a literal hyphen. -/
def expectDash : List Char → Option (List Char)
  | '-' :: cs => some cs
  | _ => none

/-- `re.match(r"^[0-9a-f]{8}-[0-9a-f]{4}-[0-9a-f]{4}-[0-9a-f]{4}-[0-9a-f]{12}$", s)`
as a full-string test.  Python's `$` also matches just before a single
trailing newline, which is modelled faithfully. -/
def isUUIDre (s : String) : Bool :=
  match hexRun 8 s.data >>= expectDash >>= hexRun 4 >>= expectDash >>=
        hexRun 4 >>= expectDash >>= hexRun 4 >>= expectDash >>= hexRun 12 with
  | some rest => rest.isEmpty || rest == ['\n']
  | none => false

/-- Error strings: every caught failure is rendered as `"Error: " ++ t`. -/
def errMsg (t : String) : String := "Error: " ++ t

/-- Outcome of one HTTP request: a response with a status code and a body
already decoded to the shape the source reads, or a transport failure
(`requests.RequestException` with message `str(e)`). -/
inductive HttpResult (α : Type) where
  | resp (status : Nat) (body : α)
  | netError (msg : String)

/-- The parameter blob after the `json.loads` stage: either malformed
(`json.JSONDecodeError`) or a parsed JSON object given by its fields.
An empty `params_json` is `parsed []` (the source substitutes `{}`). -/
inductive ParamsInput where
  | malformed
  | parsed (fields : List (String × Json))

/-- One issued HTTP request, as recorded in an operation's trace. -/
inductive Req where
  | getProjects
  | listProjects
  | getIssues (pid : String)
  | getProject (pid : String)
  | postIssue (pid : String) (body : List (String × Json))
  | postProject (body : List (String × Json))
  | patchIssue (pid : String) (iid : String) (body : List (String × Json))
  | deleteProject (pid : String)
  deriving BEq, Repr

/-- Is this request the side-effecting PATCH of an issue? -/
def Req.isPatchIssue : Req → Bool
  | .patchIssue _ _ _ => true
  | _ => false

/-- Is this request the side-effecting DELETE of a project? -/
def Req.isDeleteProject : Req → Bool
  | .deleteProject _ => true
  | _ => false

/-- Is this request one of the two GETs the issue-code resolver issues? -/
def Req.isResolverGet : Req → Bool
  | .getProjects => true
  | .getIssues _ => true
  | _ => false

/-! ## Per-endpoint response bodies and environments -/

/-- A project as read by the resolver's project scan: `p["id"]` is indexed
(present), `p.get("identifier", "")` may be absent. -/
structure RProject where
  id : String
  identifier : Option String

/-- An issue as read by the resolver's issue scan: `sequence_id` and
`state` via `.get` (may be absent), `id` and `name` indexed. -/
structure RIssue where
  id : String
  sequence_id : Option Nat
  name : String
  state : Option String

/-- HTTP environment of `get_plane_issue_id`: the response to the projects
GET and, per project id, the response to that project's issues GET. -/
structure ResolverEnv where
  projects : HttpResult (List RProject)
  issues : String → HttpResult (List RIssue)

/-- Structured form of the resolver's return value: the `json.dumps`
payload on success, the error string otherwise. -/
inductive ResolveOutcome where
  | ok (issue_id : String) (project_id : String) (name : String) (current_state : Option String)
  | err (msg : String)
  deriving BEq, Repr

/-- `json.dumps({"issue_id": ..., "project_id": ..., "name": ..., "current_state": ...})`
for the success payload (strings in the modelled space need no JSON
escaping); the error string is returned as-is. -/
def renderResolved : ResolveOutcome → String
  | .ok iid pid nm st =>
    let stStr := match st with
      | some s => "\"" ++ s ++ "\""
      | none => "null"
    "\x7b\"issue_id\": \"" ++ iid ++ "\", \"project_id\": \"" ++ pid ++
      "\", \"name\": \"" ++ nm ++ "\", \"current_state\": " ++ stStr ++ "\x7d"
  | .err m => m

/-- Body of the issue-creation POST response: `result["name"]` and
`result["sequence_id"]` are indexed. -/
structure CreatedIssue where
  name : String
  sequence_id : Nat

/-- HTTP environment of `create_plane_issue`: the response to the POST,
as a function of the project id in the URL and the request body. -/
structure CreateIssueEnv where
  post : String → List (String × Json) → HttpResult CreatedIssue

/-- Body of the project-creation POST response. -/
structure CreatedProject where
  name : String
  identifier : String

/-- HTTP environment of `create_plane_project`.  `errText status` is
`str(e)` of the `requests.HTTPError` that `raise_for_status()` raises for
a 4xx/5xx status (its exact text is produced by the library, hence part of
the environment). -/
structure CreateProjectEnv where
  post : List (String × Json) → HttpResult CreatedProject
  errText : Nat → String

/-- Body of the delete pre-flight GET: both fields read via `.get` with
defaults. -/
structure DelBody where
  name : Option String
  identifier : Option String

/-- HTTP environment of `delete_plane_project`, keyed by the project id in
the URL. -/
structure DeleteEnv where
  getProject : String → HttpResult DelBody
  del : String → HttpResult Unit

/-- Project body for `list_plane_issues`'s pre-flight GET:
`project["name"]` is indexed. -/
structure LProj where
  name : String

/-- An issue as read by `list_plane_issues`: `name`, `sequence_id` and
`priority` are indexed during formatting (present in the modelled space);
`state` via `.get`, `assignees`/`labels` via `.get` with default `[]`,
`state_detail.name` via chained `.get` with defaults collapsed into one
optional field. -/
structure LIssue where
  name : String
  sequence_id : Nat
  priority : String
  state : Option String
  assignees : List String
  labels : List String
  state_detail_name : Option String

/-- HTTP environment of `list_plane_issues`.  The issues body is the
`results` list (`response.json().get("results", [])`; an absent key is the
empty list). -/
structure ListIssuesEnv where
  getProject : String → HttpResult LProj
  getIssues : String → HttpResult (List LIssue)

/-- A project as read by `list_plane_projects`: `p["name"]`, `p["id"]`. -/
structure PSummary where
  name : String
  id : String

/-- HTTP environment of `list_plane_projects` (body is the `results`
list). -/
structure ListProjectsEnv where
  get : HttpResult (List PSummary)

/-! ## The seven operations -/

/-- Core of `get_plane_issue_id` after parameter extraction
(`src/everything/src/tools/get_plane_issue_id.py`, lines 36-92): parse the
issue code, scan projects for a case-insensitive identifier match (first
wins), scan that project's issues for the sequence number (first wins). -/
def resolveIssueCode (issue_code : String) (env : ResolverEnv) :
    ResolveOutcome × List Req :=
  match matchIssueCode issue_code with
  | none =>
    (.err (errMsg "Invalid issue code format. Expected format: PROJECT_CODE-NUMBER (e.g. CLT-37)"), [])
  | some (project_code, sequence_id) =>
    match env.projects with
    | .netError m => (.err (errMsg ("Network error - " ++ m)), [.getProjects])
    | .resp status projects =>
      if status != 200 then
        (.err (errMsg ("Failed to get projects - " ++ toString status)), [.getProjects])
      else
        match projects.find? (fun p =>
            asciiUpper (p.identifier.getD "") == asciiUpper project_code) with
        | none =>
          (.err (errMsg ("No project found with identifier " ++ project_code)), [.getProjects])
        | some project =>
          match env.issues project.id with
          | .netError m =>
            (.err (errMsg ("Network error - " ++ m)), [.getProjects, .getIssues project.id])
          | .resp status2 issues =>
            if status2 != 200 then
              (.err (errMsg ("Failed to get issues - " ++ toString status2)),
               [.getProjects, .getIssues project.id])
            else
              match issues.find? (fun i => i.sequence_id == some sequence_id) with
              | some issue =>
                (.ok issue.id project.id issue.name issue.state,
                 [.getProjects, .getIssues project.id])
              | none =>
                (.err (errMsg ("No issue found with sequence ID " ++ toString sequence_id ++
                   " in project " ++ project_code)),
                 [.getProjects, .getIssues project.id])

/-- `get_plane_issue_id` (`src/everything/src/tools/get_plane_issue_id.py`).
A truthy non-string `issue_code` makes `re.match` raise `TypeError`, which
the outer catch-all converts to an unexpected-error string (CPython's type
suffix on the message elided; no claim touches that branch). -/
def get_plane_issue_id (input : ParamsInput) (env : ResolverEnv) :
    String × List Req :=
  match input with
  | .malformed => (errMsg "Invalid JSON parameters", [])
  | .parsed params =>
    match jget params "issue_code" with
    | none => (errMsg "Issue code is required", [])
    | some v =>
      if truthy v then
        match v with
        | .str issue_code =>
          let r := resolveIssueCode issue_code env
          (renderResolved r.1, r.2)
        | _ => (errMsg "Unexpected error - expected string or bytes-like object", [])
      else (errMsg "Issue code is required", [])

/-- Derivation of `description_html` in `update_plane_issue`
(`src/everything/src/tools/update_plane_issue_v2.py`, lines 169-171):
assigned whenever `description` is present. -/
def updateBody (base : List (String × Json)) : List (String × Json) :=
  match jget base "description" with
  | some d => setKey base "description_html" (Json.str ("<p>" ++ pyStr d ++ "</p>"))
  | none => base

/-- The update body as a function of the parameters: pop the two required
keys, then derive `description_html`. -/
def updateData (params : List (String × Json)) : List (String × Json) :=
  updateBody (eraseKey (eraseKey params "project_id") "issue_id")

/-- Body of the PATCH response read by `update_plane_issue`. -/
structure UpdatedIssue where
  name : String
  sequence_id : Nat

/-- HTTP environment of `update_plane_issue`: the resolver's environment
(for the non-UUID delegation) plus the PATCH response, as a function of
the project id, issue id and body. -/
structure UpdateEnv where
  resolver : ResolverEnv
  patch : String → String → List (String × Json) → HttpResult UpdatedIssue

/-- The `changes` summary built from the keys of the update body
(`update_plane_issue_v2.py`, lines 181-193). -/
def updateChanges (update_data : List (String × Json)) : List String :=
  (if hasKey update_data "state_id" then ["status changed"] else []) ++
  (if hasKey update_data "name" then ["title updated"] else []) ++
  (if hasKey update_data "description" then ["description updated"] else []) ++
  (if hasKey update_data "priority" then
    ["priority set to " ++ pyStr (jgetD update_data "priority" Json.null)] else []) ++
  (if hasKey update_data "assignee_ids" then ["assignees updated"] else [])

/-- Tail of `update_plane_issue` after identifier handling: build the
update body, reject an empty one, PATCH, and format the outcome.  `tr` is
the trace of requests already issued by the resolver delegation. -/
def updateGo (params : List (String × Json)) (pidv iidv : Json)
    (env : UpdateEnv) (tr : List Req) : String × List Req :=
  let update_data := updateData params
  if update_data.isEmpty then (errMsg "No update parameters provided", tr)
  else
    let pidS := pyStr pidv
    let iidS := pyStr iidv
    let tr2 := tr ++ [.patchIssue pidS iidS update_data]
    match env.patch pidS iidS update_data with
    | .netError m => (errMsg ("Network error - " ++ m), tr2)
    | .resp status body =>
      if status == 200 then
        let changes := updateChanges update_data
        let changeText :=
          if changes.isEmpty then "" else " - " ++ String.intercalate ", " changes
        ("Issue updated: " ++ body.name ++ " (#" ++ toString body.sequence_id ++ ")" ++
          changeText, tr2)
      else (errMsg ("API request failed with status code " ++ toString status), tr2)

/-- `update_plane_issue`
(`src/everything/src/tools/update_plane_issue_v2.py`, lines 99-200).
A non-UUID `issue_id` is delegated to the resolver; the resolver's error
strings all start with `"Error"` and hence never parse as JSON, so the
`json.loads` of the resolution result succeeds exactly on the success
payload, which always carries `issue_id` and `project_id`. -/
def update_plane_issue (input : ParamsInput) (env : UpdateEnv) :
    String × List Req :=
  match input with
  | .malformed => (errMsg "Invalid JSON parameters", [])
  | .parsed params =>
    if getTruthy params "project_id" = false then (errMsg "Project ID is required", [])
    else if getTruthy params "issue_id" = false then (errMsg "Issue ID is required", [])
    else
      match jget params "issue_id" with
      | some (.str issue_id) =>
        if isUUIDre issue_id then
          updateGo params (jgetD params "project_id" Json.null) (Json.str issue_id) env []
        else
          let r := resolveIssueCode issue_id env.resolver
          match r.1 with
          | .ok iid pid _ _ =>
            updateGo (setKey (setKey params "issue_id" (Json.str iid))
                "project_id" (Json.str pid)) (Json.str pid) (Json.str iid) env r.2
          | .err m =>
            (errMsg ("Could not resolve issue code " ++ issue_id ++
              " to a UUID.  Details: " ++ m), r.2)
      | some _ =>
        (errMsg "Unexpected error - expected string or bytes-like object", [])
      | none => (errMsg "Issue ID is required", [])

/-- The optional fields of `create_plane_issue`. -/
def createOptionalFields : List String :=
  ["state_id", "assignee_ids", "label_ids", "start_date", "target_date"]

/-- The four fixed keys of the issue body of `create_plane_issue`
(`src/everything/src/tools/create_plane_issue_v2.py`, lines 53-59). -/
def createBaseData (params : List (String × Json)) : List (String × Json) :=
  let desc := jgetD params "description" (Json.str "")
  [("name", jgetD params "name" Json.null),
   ("description", desc),
   ("description_html", Json.str ("<p>" ++ pyStr desc ++ "</p>")),
   ("priority", jgetD params "priority" (Json.str "none"))]

/-- One `if params.get(field): issue_data[field] = params[field]` step. -/
def mergeOptField (params : List (String × Json)) (acc : List (String × Json))
    (f : String) : List (String × Json) :=
  if getTruthy params f then setKey acc f (jgetD params f Json.null) else acc

/-- The full issue body: the fixed keys, then the optional-field merge. -/
def createIssueData (params : List (String × Json)) : List (String × Json) :=
  createOptionalFields.foldl (mergeOptField params) (createBaseData params)

/-- `create_plane_issue`
(`src/everything/src/tools/create_plane_issue_v2.py`). -/
def create_plane_issue (input : ParamsInput) (env : CreateIssueEnv) :
    String × List Req :=
  match input with
  | .malformed => (errMsg "Invalid JSON parameters", [])
  | .parsed params =>
    if getTruthy params "project_id" = false then (errMsg "Project ID is required", [])
    else if getTruthy params "name" = false then (errMsg "Issue name is required", [])
    else
      let issue_data := createIssueData params
      let pidS := pyStr (jgetD params "project_id" Json.null)
      let tr := [Req.postIssue pidS issue_data]
      match env.post pidS issue_data with
      | .netError m => (errMsg ("Network error - " ++ m), tr)
      | .resp status body =>
        if status == 201 then
          ("Issue created: " ++ body.name ++ " (#" ++ toString body.sequence_id ++ ")", tr)
        else (errMsg ("API request failed with status code " ++ toString status), tr)

/-- `create_plane_project`
(`src/everything/src/tools/create_plane_project_v2.py`): note that `name`
is validated before `identifier`, and that a 4xx/5xx status makes the
inner `raise_for_status()` raise, caught as an API-request-failed error
carrying the library's exception text. -/
def create_plane_project (input : ParamsInput) (env : CreateProjectEnv) :
    String × List Req :=
  match input with
  | .malformed => (errMsg "Invalid JSON parameters", [])
  | .parsed params =>
    if getTruthy params "name" = false then (errMsg "Project name is required", [])
    else if getTruthy params "identifier" = false then
      (errMsg "Project identifier is required", [])
    else
      let project_data : List (String × Json) :=
        [("name", jgetD params "name" Json.null),
         ("identifier", jgetD params "identifier" Json.null),
         ("description", jgetD params "description" (Json.str "")),
         ("network", jgetD params "network" (Json.num 2))]
      let tr := [Req.postProject project_data]
      match env.post project_data with
      | .netError m => (errMsg ("API request failed - " ++ m), tr)
      | .resp status body =>
        if 400 ≤ status && status < 600 then
          (errMsg ("API request failed - " ++ env.errText status), tr)
        else if status == 201 then
          ("Project created: " ++ body.name ++ " (" ++ body.identifier ++ ")", tr)
        else (errMsg ("API request failed with status code " ++ toString status), tr)

/-- `delete_plane_project`
(`src/everything/src/tools/delete_plane_project.py`): confirmation check,
pre-flight GET of the project, then the DELETE with a status-specific
message. -/
def delete_plane_project (input : ParamsInput) (env : DeleteEnv) :
    String × List Req :=
  match input with
  | .malformed => (errMsg "Invalid JSON parameters", [])
  | .parsed params =>
    if getTruthy params "project_id" = false then (errMsg "Project ID is required", [])
    else if getTruthy params "confirm" = false then
      (errMsg "Please confirm deletion by setting 'confirm': true", [])
    else
      let pidS := pyStr (jgetD params "project_id" Json.null)
      match env.getProject pidS with
      | .netError m => (errMsg ("Network error - " ++ m), [.getProject pidS])
      | .resp status body =>
        if status != 200 then
          (errMsg ("Project not found or access denied (Status code: " ++
            toString status ++ ")"), [.getProject pidS])
        else
          let project_name := body.name.getD "Unknown Project"
          let project_identifier := body.identifier.getD "Unknown"
          let tr := [Req.getProject pidS, Req.deleteProject pidS]
          match env.del pidS with
          | .netError m => (errMsg ("Network error - " ++ m), tr)
          | .resp ds _ =>
            if ds == 204 then
              ("Project deleted successfully: " ++ project_name ++
                " (" ++ project_identifier ++ ")", tr)
            else if ds == 404 then (errMsg "Project not found", tr)
            else if ds == 403 then (errMsg "Permission denied to delete project", tr)
            else (errMsg ("Failed to delete project (Status code: " ++
              toString ds ++ ")"), tr)

/-- Python `==` between a JSON parameter value and an optional-string
issue field (`None` or a string). -/
def jeqOptStr (v : Json) : Option String → Bool
  | some s => v == Json.str s
  | none => v == Json.null

/-- Python `==` between a JSON parameter value and a string field. -/
def jeqStr (v : Json) (s : String) : Bool :=
  v == Json.str s

/-- Python `in` between a JSON parameter value and a list of strings. -/
def jmem (v : Json) (xs : List String) : Bool :=
  xs.any (fun s => v == Json.str s)

/-- The four sequential client-side filters of `list_plane_issues`
(`src/everything/src/tools/list_plane_issues_v2.py`, lines 66-74), each
applied only when the corresponding parameter is present and truthy. -/
def applyIssueFilters (params : List (String × Json)) (issues : List LIssue) :
    List LIssue :=
  let is1 := if getTruthy params "state_id" then
      issues.filter (fun i => jeqOptStr (jgetD params "state_id" Json.null) i.state)
    else issues
  let is2 := if getTruthy params "priority" then
      is1.filter (fun i => jeqStr (jgetD params "priority" Json.null) i.priority)
    else is1
  let is3 := if getTruthy params "assignee_id" then
      is2.filter (fun i => jmem (jgetD params "assignee_id" Json.null) i.assignees)
    else is2
  if getTruthy params "label_id" then
    is3.filter (fun i => jmem (jgetD params "label_id" Json.null) i.labels)
  else is3

/-- One formatted line of the issue listing
(`list_plane_issues_v2.py`, lines 81-84). -/
def issueLine (i : LIssue) : String :=
  let priority_text :=
    if i.priority != "none" then " - " ++ pyTitle i.priority ++ " Priority" else ""
  let state_text := " - " ++ i.state_detail_name.getD "Unknown State"
  toString i.sequence_id ++ ". " ++ i.name ++ priority_text ++ state_text

/-- `list_plane_issues`
(`src/everything/src/tools/list_plane_issues_v2.py`): pre-flight project
GET, issues GET, the emptiness checks before and after filtering, and the
formatted listing. -/
def list_plane_issues (input : ParamsInput) (env : ListIssuesEnv) :
    String × List Req :=
  match input with
  | .malformed => (errMsg "Invalid JSON parameters", [])
  | .parsed params =>
    if getTruthy params "project_id" = false then (errMsg "Project ID is required", [])
    else
      let pidS := pyStr (jgetD params "project_id" Json.null)
      match env.getProject pidS with
      | .netError m => (errMsg ("Network error - " ++ m), [.getProject pidS])
      | .resp status proj =>
        if status != 200 then
          (errMsg ("Failed to get project details - " ++ toString status),
           [.getProject pidS])
        else
          let tr := [Req.getProject pidS, Req.getIssues pidS]
          match env.getIssues pidS with
          | .netError m => (errMsg ("Network error - " ++ m), tr)
          | .resp status2 issues =>
            if status2 == 200 then
              if issues.isEmpty then
                ("No issues found in project " ++ proj.name, tr)
              else
                let filtered := applyIssueFilters params issues
                if filtered.isEmpty then
                  ("No issues match the specified filters", tr)
                else
                  (String.intercalate "\n"
                    (("Issues in " ++ proj.name ++ ":") :: filtered.map issueLine), tr)
            else
              (errMsg ("API request failed with status code " ++ toString status2), tr)

/-- `list_plane_projects`
(`src/everything/src/tools/list_plane_projects_v2.py`): the parameter blob
is accepted but never parsed or used ("kept for consistency"), so the
operation proceeds straight to the GET on every input. -/
def list_plane_projects (_input : ParamsInput) (env : ListProjectsEnv) :
    String × List Req :=
  match env.get with
  | .netError m => (errMsg ("Network error - " ++ m), [.listProjects])
  | .resp status projects =>
    if status == 200 then
      ("Projects:\n" ++ String.intercalate "\n"
        (projects.map (fun p => p.name ++ " (ID: " ++ p.id ++ ")")), [.listProjects])
    else (errMsg ("API request failed with status code " ++ toString status), [.listProjects])

/-- Written from the claim's words, for comparison with the source's
pattern check: a string that matches `<letters>-<digits>` in full — one or
more ASCII letters, a hyphen, one or more digits and nothing else. -/
def specFullCodeMatch (s : String) : Bool :=
  let letters := s.data.takeWhile Char.isAlpha
  match s.data.drop letters.length with
  | '-' :: ds => !letters.isEmpty && !ds.isEmpty && ds.all Char.isDigit
  | _ => false

/-- Written from the amended claim's words: the string begins with one or
more ASCII letters, then a hyphen, then at least one digit (anything may
follow). -/
def specCodeStart (s : String) : Bool :=
  let letters := s.data.takeWhile Char.isAlpha
  !letters.isEmpty &&
    (match s.data.drop letters.length with
     | '-' :: d :: _ => d.isDigit
     | _ => false)

/-- Written from the claim's words for C8: an issue passes the supplied
client-side filters — for each of the four filter keys, either the key is
absent/falsy or the issue's field satisfies it — so the displayed set is
the logical AND of all supplied filters. -/
def issuePasses (params : List (String × Json)) (i : LIssue) : Bool :=
  (!(getTruthy params "state_id") || jeqOptStr (jgetD params "state_id" Json.null) i.state) &&
  (!(getTruthy params "priority") || jeqStr (jgetD params "priority" Json.null) i.priority) &&
  (!(getTruthy params "assignee_id") || jmem (jgetD params "assignee_id" Json.null) i.assignees) &&
  (!(getTruthy params "label_id") || jmem (jgetD params "label_id" Json.null) i.labels)

/-- The result string carries the given literal as a prefix. -/
def hasStrPre (pfx r : String) : Prop := ∃ t, r = pfx ++ t

/-! ## Helper lemmas about the embedding -/

theorem strAppendAssoc : ∀ (a b c : String), a ++ b ++ c = a ++ (b ++ c)
  | ⟨a⟩, ⟨b⟩, ⟨c⟩ => congrArg String.mk (List.append_assoc a b c)

theorem jget_nil (k : String) : jget [] k = none := rfl

theorem jget_cons (k0 : String) (v : Json) (t : List (String × Json)) (k : String) :
    jget ((k0, v) :: t) k = if k0 == k then some v else jget t k := by
  by_cases h : k0 = k <;> simp [jget, List.find?_cons, h]

theorem eraseKey_nil (k : String) : eraseKey [] k = [] := rfl

theorem eraseKey_cons (k0 : String) (v : Json) (t : List (String × Json)) (k : String) :
    eraseKey ((k0, v) :: t) k =
      if k0 == k then eraseKey t k else (k0, v) :: eraseKey t k := by
  by_cases h : k0 = k <;> simp [eraseKey, List.filter_cons, h]

theorem hasKey_cons (k0 : String) (v : Json) (t : List (String × Json)) (k : String) :
    hasKey ((k0, v) :: t) k = (k0 == k || hasKey t k) := by
  simp [hasKey, List.any_cons]

theorem jget_eraseKey_other (kvs : List (String × Json)) (k k' : String) (h : ¬ k' = k) :
    jget (eraseKey kvs k) k' = jget kvs k' := by
  induction kvs with
  | nil => rfl
  | cons a t ih =>
    rcases a with ⟨k0, v⟩
    rw [eraseKey_cons]
    by_cases h0 : k0 = k
    · subst h0
      have : ¬ (k0 = k') := fun he => h he.symm
      simp [jget_cons, this, ih]
    · by_cases h1 : k0 = k'
      · subst h1
        simp [h, h0, jget_cons]
      · simp [h0, h1, jget_cons, ih]

theorem jget_eraseKey_same (kvs : List (String × Json)) (k : String) :
    jget (eraseKey kvs k) k = none := by
  induction kvs with
  | nil => rfl
  | cons a t ih =>
    rcases a with ⟨k0, v⟩
    rw [eraseKey_cons]
    by_cases h0 : k0 = k <;> simp [h0, jget_cons, ih]

theorem jget_overwrite (kvs : List (String × Json)) (k : String) (v : Json)
    (h : hasKey kvs k = true) :
    jget (kvs.map (fun kv => if kv.1 == k then (k, v) else kv)) k = some v := by
  induction kvs with
  | nil => simp [hasKey] at h
  | cons a t ih =>
    rcases a with ⟨k0, v0⟩
    rw [hasKey_cons] at h
    by_cases h0 : k0 = k
    · simp [h0, jget_cons]
    · have h0' : (k0 == k) = false := by simp [h0]
      rw [h0', Bool.false_or] at h
      simpa [h0', jget_cons, h0] using ih h

theorem jget_append_self (kvs : List (String × Json)) (k : String) (v : Json)
    (h : hasKey kvs k = false) :
    jget (kvs ++ [(k, v)]) k = some v := by
  induction kvs with
  | nil => simp [jget_cons]
  | cons a t ih =>
    rcases a with ⟨k0, v0⟩
    rw [hasKey_cons] at h
    have h0 : (k0 == k) = false := by
      cases hb : (k0 == k) with
      | true => rw [hb, Bool.true_or] at h; exact absurd h (by simp)
      | false => rfl
    rw [h0, Bool.false_or] at h
    have h0' : ¬ k0 = k := by simpa using h0
    simp [jget_cons, h0', ih h]

theorem jget_setKey_same (kvs : List (String × Json)) (k : String) (v : Json) :
    jget (setKey kvs k v) k = some v := by
  unfold setKey
  cases h : hasKey kvs k with
  | true => simp only [h, ite_true]; exact jget_overwrite kvs k v h
  | false => simp only [h, Bool.false_eq_true, ite_false]; exact jget_append_self kvs k v h

theorem jget_overwrite_other (t : List (String × Json)) (k k' : String) (v : Json)
    (h : ¬ k' = k) :
    jget (t.map (fun kv => if kv.1 == k then (k, v) else kv)) k' = jget t k' := by
  induction t with
  | nil => rfl
  | cons a tb ih =>
    rcases a with ⟨k0, v0⟩
    by_cases h0 : k0 = k
    · subst h0
      have hne : ¬ k0 = k' := fun he => h he.symm
      simpa [jget_cons, hne] using ih
    · by_cases h1 : k0 = k'
      · simp [jget_cons, h0, h1, h]
      · simpa [jget_cons, h0, h1] using ih

theorem jget_append_other (t : List (String × Json)) (k k' : String) (v : Json)
    (h : ¬ k' = k) :
    jget (t ++ [(k, v)]) k' = jget t k' := by
  induction t with
  | nil =>
    have hne : ¬ k = k' := fun he => h he.symm
    simp [jget_cons, jget_nil, hne]
  | cons a tb ih =>
    rcases a with ⟨k0, v0⟩
    by_cases h1 : k0 = k'
    · simp [jget_cons, h1]
    · simp [jget_cons, h1, ih]

theorem jget_setKey_other (kvs : List (String × Json)) (k k' : String) (v : Json)
    (h : ¬ k' = k) :
    jget (setKey kvs k v) k' = jget kvs k' := by
  unfold setKey
  cases hh : hasKey kvs k with
  | true => simp only [hh, ite_true]; exact jget_overwrite_other kvs k k' v h
  | false =>
    simp only [hh, Bool.false_eq_true, ite_false]
    exact jget_append_other kvs k k' v h

theorem hasKey_eq_isSome (kvs : List (String × Json)) (k : String) :
    hasKey kvs k = (jget kvs k).isSome := by
  induction kvs with
  | nil => rfl
  | cons a t ih =>
    rcases a with ⟨k0, v0⟩
    by_cases h0 : k0 = k <;> simp [hasKey_cons, jget_cons, h0, ih]

theorem eraseKey_overwrite (kvs : List (String × Json)) (k : String) (v : Json) :
    eraseKey (kvs.map (fun kv => if kv.1 == k then (k, v) else kv)) k = eraseKey kvs k := by
  induction kvs with
  | nil => rfl
  | cons a t ih =>
    rcases a with ⟨k0, v0⟩
    by_cases h0 : k0 = k
    · subst h0
      simpa [eraseKey_cons] using ih
    · simpa [eraseKey_cons, h0] using ih

theorem eraseKey_setKey_same (kvs : List (String × Json)) (k : String) (v : Json) :
    eraseKey (setKey kvs k v) k = eraseKey kvs k := by
  unfold setKey
  cases hh : hasKey kvs k with
  | true => simp only [hh, ite_true]; exact eraseKey_overwrite kvs k v
  | false =>
    simp only [hh, Bool.false_eq_true, ite_false]
    have h1 : eraseKey [(k, v)] k = [] := by simp [eraseKey_cons, eraseKey_nil]
    calc eraseKey (kvs ++ [(k, v)]) k
        = eraseKey kvs k ++ eraseKey [(k, v)] k := by
          simp [eraseKey, List.filter_append]
      _ = eraseKey kvs k := by rw [h1, List.append_nil]

theorem eraseKey_comm (kvs : List (String × Json)) (a b : String) :
    eraseKey (eraseKey kvs a) b = eraseKey (eraseKey kvs b) a := by
  simp only [eraseKey, List.filter_filter]
  apply List.filter_congr
  intro kv _
  exact Bool.and_comm _ _

theorem updateData_setKey2 (kvs : List (String × Json)) (vi vp : Json) :
    updateData (setKey (setKey kvs "issue_id" vi) "project_id" vp) = updateData kvs := by
  unfold updateData
  congr 1
  rw [eraseKey_setKey_same]
  rw [eraseKey_comm]
  rw [eraseKey_setKey_same]
  rw [eraseKey_comm]

theorem truthy_str_of_ne (s : String) (h : ¬ s = "") : truthy (Json.str s) = true := by
  simp [truthy, h]

theorem matchIssueCode_empty : matchIssueCode "" = none := rfl

theorem isUUIDre_empty : isUUIDre "" = false := rfl

theorem getTruthy_of_some (kvs : List (String × Json)) (k : String) (v : Json)
    (h : jget kvs k = some v) : getTruthy kvs k = truthy v := by
  simp [getTruthy, h]

theorem eraseKey_two_nil (kvs : List (String × Json)) (a b : String)
    (h : ∀ kv ∈ kvs, kv.1 = a ∨ kv.1 = b) :
    eraseKey (eraseKey kvs a) b = [] := by
  induction kvs with
  | nil => rfl
  | cons x t ih =>
    rcases x with ⟨k0, v0⟩
    have hx := h (k0, v0) (List.mem_cons_self _ _)
    have ht : ∀ kv ∈ t, kv.1 = a ∨ kv.1 = b :=
      fun kv hkv => h kv (List.mem_cons_of_mem _ hkv)
    by_cases ha : k0 = a
    · simp [eraseKey_cons, ha, ih ht]
    · have hb : k0 = b := by
        rcases hx with hxa | hxb
        · exact absurd hxa ha
        · exact hxb
      have hba : ¬ b = a := fun he => ha (hb.trans he)
      simp [eraseKey_cons, ha, hb, hba, ih ht]

theorem resolve_trace_cons (c : String) (env : ResolverEnv) (p : String × Nat)
    (h : matchIssueCode c = some p) :
    ∃ l, (resolveIssueCode c env).2 = Req.getProjects :: l := by
  rcases p with ⟨pc, n⟩
  unfold resolveIssueCode
  simp only [h]
  repeat' split
  all_goals exact ⟨_, rfl⟩

theorem resolve_trace_safe (c : String) (env : ResolverEnv) :
    (resolveIssueCode c env).2.all
      (fun r => !r.isPatchIssue && !r.isDeleteProject) = true := by
  unfold resolveIssueCode
  repeat' split
  all_goals rfl

/-! ## Claims -/

/-- Claim C4, counterexample: `list_plane_projects` never parses its
parameter blob, so a malformed input does not produce the
input-validation error — the operation proceeds to the HTTP call and
returns the project listing. -/
theorem c4_list_projects_counterexample :
    list_plane_projects ParamsInput.malformed ⟨HttpResult.resp 200 []⟩ =
      ("Projects:\n", [Req.listProjects]) ∧
    ¬ (("Projects:\n" : String) = "Error: Invalid JSON parameters") :=
  ⟨rfl, by decide⟩

/-- Claim C4 (amended): every operation that parses its parameter blob —
all of the seven except `list_plane_projects`, which ignores the blob and
always proceeds to its HTTP call — returns "Error: Invalid JSON
parameters" on malformed input and performs no HTTP call. -/
theorem c4_malformed_json_rejected :
    (∀ env : ResolverEnv,
      get_plane_issue_id ParamsInput.malformed env = ("Error: Invalid JSON parameters", [])) ∧
    (∀ env : CreateProjectEnv,
      create_plane_project ParamsInput.malformed env = ("Error: Invalid JSON parameters", [])) ∧
    (∀ env : DeleteEnv,
      delete_plane_project ParamsInput.malformed env = ("Error: Invalid JSON parameters", [])) ∧
    (∀ env : CreateIssueEnv,
      create_plane_issue ParamsInput.malformed env = ("Error: Invalid JSON parameters", [])) ∧
    (∀ env : ListIssuesEnv,
      list_plane_issues ParamsInput.malformed env = ("Error: Invalid JSON parameters", [])) ∧
    (∀ env : UpdateEnv,
      update_plane_issue ParamsInput.malformed env = ("Error: Invalid JSON parameters", [])) :=
  ⟨fun _ => rfl, fun _ => rfl, fun _ => rfl, fun _ => rfl, fun _ => rfl, fun _ => rfl⟩

/-- Claim C7, counterexample: an input whose parameters lack a truthy
`confirm` key but also lack `project_id` is rejected with the
project-id-required error, not the confirmation-required error (the
`project_id` check runs first). -/
theorem c7_missing_project_id_counterexample :
    delete_plane_project (ParamsInput.parsed [("confirm", Json.bool false)])
        ⟨fun _ => HttpResult.resp 200 ⟨none, none⟩, fun _ => HttpResult.resp 204 ()⟩ =
      ("Error: Project ID is required", []) ∧
    ¬ (("Error: Project ID is required" : String) =
        "Error: Please confirm deletion by setting 'confirm': true") :=
  ⟨rfl, by decide⟩

/-- Claim C7 (amended): for every input to `delete_plane_project` whose
parsed parameters contain a truthy `project_id` but lack a truthy
`confirm` key, the operation returns the confirmation-required error and
issues no HTTP request at all — neither the pre-flight GET nor the
DELETE. -/
theorem c7_unconfirmed_delete_rejected (kvs : List (String × Json)) (env : DeleteEnv)
    (h1 : getTruthy kvs "project_id" = true) (h2 : getTruthy kvs "confirm" = false) :
    delete_plane_project (ParamsInput.parsed kvs) env =
      ("Error: Please confirm deletion by setting 'confirm': true", []) := by
  simp only [delete_plane_project]
  rw [h1, h2]
  rfl

/-- Witness for claim C7's amended theorem at a concrete input. -/
theorem c7_unconfirmed_delete_rejected_witness :
    delete_plane_project (ParamsInput.parsed [("project_id", Json.str "p1")])
        ⟨fun _ => HttpResult.resp 200 ⟨none, none⟩, fun _ => HttpResult.resp 204 ()⟩ =
      ("Error: Please confirm deletion by setting 'confirm': true", []) :=
  c7_unconfirmed_delete_rejected _ _ rfl rfl

/-- Claim C10: an update whose parameters hold a (truthy) `project_id`
and a well-formed-UUID `issue_id` and nothing else is rejected with
"Error: No update parameters provided" and issues no HTTP request. -/
theorem c10_no_update_params (kvs : List (String × Json)) (pv : Json) (u : String)
    (env : UpdateEnv)
    (hks : ∀ kv ∈ kvs, kv.1 = "project_id" ∨ kv.1 = "issue_id")
    (hp : jget kvs "project_id" = some pv) (hpt : truthy pv = true)
    (hi : jget kvs "issue_id" = some (Json.str u)) (hu : isUUIDre u = true) :
    update_plane_issue (ParamsInput.parsed kvs) env =
      ("Error: No update parameters provided", []) := by
  have h1 : getTruthy kvs "project_id" = true := by
    rw [getTruthy_of_some kvs _ _ hp]; exact hpt
  have hne : ¬ u = "" := by
    intro he
    rw [he] at hu
    exact absurd hu (by decide)
  have h2 : getTruthy kvs "issue_id" = true := by
    rw [getTruthy_of_some kvs _ _ hi]; exact truthy_str_of_ne u hne
  have hbase : eraseKey (eraseKey kvs "project_id") "issue_id" = [] :=
    eraseKey_two_nil kvs _ _ hks
  unfold update_plane_issue
  simp only [h1, h2, hi, hu]
  unfold updateGo updateData
  rw [hbase]
  rfl

/-- Witness for claim C10's theorem at a concrete input. -/
theorem c10_no_update_params_witness :
    update_plane_issue (ParamsInput.parsed
        [("project_id", Json.str "p1"),
         ("issue_id", Json.str "550e8400-e29b-41d4-a716-446655440000")])
      ⟨⟨HttpResult.resp 200 [], fun _ => HttpResult.resp 200 []⟩,
        fun _ _ _ => HttpResult.resp 200 ⟨"X", 1⟩⟩ =
      ("Error: No update parameters provided", []) :=
  c10_no_update_params _ (Json.str "p1") "550e8400-e29b-41d4-a716-446655440000" _
    (by intro kv hkv; fin_cases hkv <;> simp) rfl rfl rfl rfl

/-- Evaluation of the resolver wrapper on a non-empty string issue code:
it renders the outcome of `resolveIssueCode` and issues its requests. -/
theorem get_plane_issue_id_str (code : String) (env : ResolverEnv) (h : ¬ code = "") :
    get_plane_issue_id (ParamsInput.parsed [("issue_code", Json.str code)]) env =
      (renderResolved (resolveIssueCode code env).1, (resolveIssueCode code env).2) := by
  have ht : truthy (Json.str code) = true := truthy_str_of_ne code h
  have hj : jget [("issue_code", Json.str code)] "issue_code" = some (Json.str code) := rfl
  simp only [get_plane_issue_id, hj, ht, if_true]

/-- Claim C1: for a well-formed issue code CODE-N (here: one whose parse by
the resolver's pattern yields project code `pcode` and number `n`), against
projects and issues endpoints that answer 200: if the project list holds a
case-insensitive identifier match, the first such project is used; if that
project's issue list holds an issue with sequence number `n`, the resolver
returns the JSON object with exactly the fields issue_id, project_id, name,
current_state from that (first-matching) project and issue; if no issue
matches, the issue-not-found error string is returned; if no project
matches, the project-not-found error string is returned. -/
theorem c1_resolver_lookup (code pcode : String) (n : Nat) (ps : List RProject)
    (iss : String → List RIssue)
    (hm : matchIssueCode code = some (pcode, n)) :
    (∀ p, ps.find? (fun q => asciiUpper (q.identifier.getD "") == asciiUpper pcode) = some p →
      (∀ i, (iss p.id).find? (fun j => j.sequence_id == some n) = some i →
        (get_plane_issue_id (ParamsInput.parsed [("issue_code", Json.str code)])
            ⟨HttpResult.resp 200 ps, fun pid => HttpResult.resp 200 (iss pid)⟩).1 =
          renderResolved (ResolveOutcome.ok i.id p.id i.name i.state)) ∧
      ((iss p.id).find? (fun j => j.sequence_id == some n) = none →
        (get_plane_issue_id (ParamsInput.parsed [("issue_code", Json.str code)])
            ⟨HttpResult.resp 200 ps, fun pid => HttpResult.resp 200 (iss pid)⟩).1 =
          errMsg ("No issue found with sequence ID " ++ toString n ++
            " in project " ++ pcode))) ∧
    (ps.find? (fun q => asciiUpper (q.identifier.getD "") == asciiUpper pcode) = none →
      (get_plane_issue_id (ParamsInput.parsed [("issue_code", Json.str code)])
          ⟨HttpResult.resp 200 ps, fun pid => HttpResult.resp 200 (iss pid)⟩).1 =
        errMsg ("No project found with identifier " ++ pcode)) := by
  have hne : ¬ code = "" := by
    intro he
    rw [he, matchIssueCode_empty] at hm
    exact Option.noConfusion hm
  have hw := get_plane_issue_id_str code
    ⟨HttpResult.resp 200 ps, fun pid => HttpResult.resp 200 (iss pid)⟩ hne
  refine ⟨fun p hp => ⟨fun i hi => ?_, fun hnone => ?_⟩, fun hnone => ?_⟩
  · rw [hw]
    unfold resolveIssueCode
    simp only [hm, hp, hi]
    rfl
  · rw [hw]
    unfold resolveIssueCode
    simp only [hm, hp, hnone]
    rfl
  · rw [hw]
    unfold resolveIssueCode
    simp only [hm, hnone]
    rfl

/-- Witness for claim C1's theorem: resolving "CLT-37" against one project
"clt" holding issue #37. -/
theorem c1_resolver_lookup_witness :
    (get_plane_issue_id (ParamsInput.parsed [("issue_code", Json.str "CLT-37")])
        ⟨HttpResult.resp 200 [⟨"p1", some "clt"⟩],
         fun _ => HttpResult.resp 200 [⟨"i1", some 37, "Fix", some "s1"⟩]⟩).1 =
      renderResolved (ResolveOutcome.ok "i1" "p1" "Fix" (some "s1")) :=
  ((c1_resolver_lookup "CLT-37" "CLT" 37 [⟨"p1", some "clt"⟩]
      (fun _ => [⟨"i1", some 37, "Fix", some "s1"⟩]) rfl).1
    ⟨"p1", some "clt"⟩ rfl).1 ⟨"i1", some 37, "Fix", some "s1"⟩ rfl

theorem matchIssueCode_isSome (s : String) :
    (matchIssueCode s).isSome = specCodeStart s := by
  simp only [matchIssueCode, specCodeStart]
  cases hl : s.data.takeWhile Char.isAlpha with
  | nil => simp
  | cons c cs =>
    simp only [List.isEmpty_cons, Bool.not_false, Bool.true_and]
    cases hd : s.data.drop (c :: cs).length with
    | nil => simp
    | cons d ds =>
      by_cases hdash : d = '-'
      · subst hdash
        cases ds with
        | nil => simp
        | cons e es =>
          by_cases he : e.isDigit = true
          · simp [List.takeWhile_cons, he]
          · have he' : e.isDigit = false := by
              cases hb : e.isDigit with
              | true => exact absurd hb he
              | false => rfl
            simp [List.takeWhile_cons, he']
      · simp [hdash]

theorem matchIssueCode_none_iff (s : String) :
    matchIssueCode s = none ↔ specCodeStart s = false := by
  rw [← matchIssueCode_isSome]
  cases matchIssueCode s <;> simp

/-- Claim C5, counterexample: "AB-1X" does not match `<letters>-<digits>`
as a whole string, yet the resolver does not return the format error — the
code's `re.match` is unanchored at the end, so the lookup proceeds (a
projects GET is issued and the project-not-found error is returned).  The
conjunct on the empty string records the second forced restriction: ""
fails the required-field check before the pattern is ever consulted. -/
theorem c5_prefix_match_counterexample :
    specFullCodeMatch "AB-1X" = false ∧
    (get_plane_issue_id (ParamsInput.parsed [("issue_code", Json.str "AB-1X")])
        ⟨HttpResult.resp 200 [], fun _ => HttpResult.resp 200 []⟩) =
      ("Error: No project found with identifier AB", [Req.getProjects]) ∧
    ¬ (("Error: No project found with identifier AB" : String) =
        "Error: Invalid issue code format. Expected format: PROJECT_CODE-NUMBER (e.g. CLT-37)") ∧
    (get_plane_issue_id (ParamsInput.parsed [("issue_code", Json.str "")])
        ⟨HttpResult.resp 200 [], fun _ => HttpResult.resp 200 []⟩) =
      ("Error: Issue code is required", []) :=
  ⟨rfl, rfl, by decide, rfl⟩

/-- Claim C5 (amended): for every non-empty issue_code string (the empty
string is rejected earlier as a missing required field), the resolver
returns the format-error result, with no HTTP request, if and only if the
string does not BEGIN WITH one or more ASCII letters, a hyphen and at
least one digit; strings that do begin that way proceed to the project
lookup (the projects GET is issued), with any trailing characters after
the digit run ignored. -/
theorem c5_format_error_iff (s : String) (env : ResolverEnv) (h : ¬ s = "") :
    (get_plane_issue_id (ParamsInput.parsed [("issue_code", Json.str s)]) env =
        ("Error: Invalid issue code format. Expected format: PROJECT_CODE-NUMBER (e.g. CLT-37)", [])
      ↔ specCodeStart s = false) ∧
    (specCodeStart s = true →
      ∃ l, (get_plane_issue_id (ParamsInput.parsed [("issue_code", Json.str s)]) env).2 =
        Req.getProjects :: l) := by
  rw [get_plane_issue_id_str s env h]
  constructor
  · constructor
    · intro heq
      cases hs : specCodeStart s with
      | false => rfl
      | true =>
        obtain ⟨p, hp⟩ : ∃ p, matchIssueCode s = some p := by
          have hi := matchIssueCode_isSome s
          rw [hs] at hi
          exact Option.isSome_iff_exists.mp hi
        obtain ⟨l, hl⟩ := resolve_trace_cons s env p hp
        have h2 := congrArg Prod.snd heq
        simp only at h2
        rw [hl] at h2
        exact List.noConfusion h2
    · intro hs
      have hm : matchIssueCode s = none := (matchIssueCode_none_iff s).mpr hs
      unfold resolveIssueCode
      simp only [hm]
      rfl
  · intro hs
    obtain ⟨p, hp⟩ : ∃ p, matchIssueCode s = some p := by
      have hi := matchIssueCode_isSome s
      rw [hs] at hi
      exact Option.isSome_iff_exists.mp hi
    obtain ⟨l, hl⟩ := resolve_trace_cons s env p hp
    exact ⟨l, hl⟩

/-- Witness for claim C5's amended theorem: "!!" does not begin with
letters-hyphen-digit, so the format error is returned with no HTTP
request. -/
theorem c5_format_error_iff_witness :
    get_plane_issue_id (ParamsInput.parsed [("issue_code", Json.str "!!")])
        ⟨HttpResult.resp 200 [], fun _ => HttpResult.resp 200 []⟩ =
      ("Error: Invalid issue code format. Expected format: PROJECT_CODE-NUMBER (e.g. CLT-37)", []) :=
  ((c5_format_error_iff "!!"
      ⟨HttpResult.resp 200 [], fun _ => HttpResult.resp 200 []⟩ (by decide)).1).mpr rfl

theorem all_and_left {α : Type} (p q : α → Bool) (l : List α)
    (h : l.all (fun r => p r && q r) = true) : l.all p = true := by
  induction l with
  | nil => rfl
  | cons a t ih =>
    simp only [List.all_cons, Bool.and_eq_true] at h ⊢
    exact ⟨h.1.1, ih h.2⟩

/-- Claim C9: multi-step operations abort on the first failing step with
no later side-effecting call. (a) If the delete pre-flight GET answers a
status other than 200, the status-specific error is returned and the
trace is exactly the one GET — no DELETE is issued. (b) If update's
issue-code resolution fails, the delegation error naming the code is
returned, the trace is exactly the resolver's GETs, and none of those
requests is a PATCH. -/
theorem c9_abort_on_first_failure :
    (∀ (kvs : List (String × Json)) (env : DeleteEnv) (st : Nat) (b : DelBody),
      getTruthy kvs "project_id" = true → getTruthy kvs "confirm" = true →
      env.getProject (pyStr (jgetD kvs "project_id" Json.null)) = HttpResult.resp st b →
      ¬ st = 200 →
      delete_plane_project (ParamsInput.parsed kvs) env =
        (errMsg ("Project not found or access denied (Status code: " ++ toString st ++ ")"),
         [Req.getProject (pyStr (jgetD kvs "project_id" Json.null))])) ∧
    (∀ (kvs : List (String × Json)) (env : UpdateEnv) (u m : String),
      getTruthy kvs "project_id" = true →
      jget kvs "issue_id" = some (Json.str u) → ¬ u = "" →
      isUUIDre u = false →
      (resolveIssueCode u env.resolver).1 = ResolveOutcome.err m →
      update_plane_issue (ParamsInput.parsed kvs) env =
        (errMsg ("Could not resolve issue code " ++ u ++ " to a UUID.  Details: " ++ m),
         (resolveIssueCode u env.resolver).2) ∧
      (resolveIssueCode u env.resolver).2.all (fun r => !r.isPatchIssue) = true) := by
  constructor
  · intro kvs env st b h1 h2 hresp hne
    simp only [delete_plane_project, h1, h2, hresp]
    rw [show (st != 200) = true by simp [hne]]
    rfl
  · intro kvs env u m h1 hi hne huu hres
    have h2 : getTruthy kvs "issue_id" = true := by
      rw [getTruthy_of_some kvs _ _ hi]; exact truthy_str_of_ne u hne
    constructor
    · simp only [update_plane_issue, h1, h2, hi, huu, hres]
      rfl
    · exact all_and_left _ _ _ (resolve_trace_safe u env.resolver)

/-- Witness for claim C9's theorem: a 404 pre-flight aborts the delete,
and an unresolvable issue code aborts the update before any PATCH. -/
theorem c9_abort_on_first_failure_witness :
    delete_plane_project
        (ParamsInput.parsed [("project_id", Json.str "p1"), ("confirm", Json.bool true)])
        ⟨fun _ => HttpResult.resp 404 ⟨none, none⟩, fun _ => HttpResult.resp 204 ()⟩ =
      ("Error: Project not found or access denied (Status code: 404)",
       [Req.getProject "p1"]) ∧
    update_plane_issue
        (ParamsInput.parsed [("project_id", Json.str "zz"),
          ("issue_id", Json.str "QQ-9"), ("name", Json.str "New")])
        ⟨⟨HttpResult.resp 200 [], fun _ => HttpResult.resp 200 []⟩,
          fun _ _ _ => HttpResult.resp 200 ⟨"X", 1⟩⟩ =
      ("Error: Could not resolve issue code QQ-9 to a UUID.  Details: Error: No project found with identifier QQ",
       [Req.getProjects]) :=
  ⟨c9_abort_on_first_failure.1 _ _ 404 ⟨none, none⟩ rfl rfl rfl (by decide),
   (c9_abort_on_first_failure.2
      [("project_id", Json.str "zz"), ("issue_id", Json.str "QQ-9"), ("name", Json.str "New")]
      ⟨⟨HttpResult.resp 200 [], fun _ => HttpResult.resp 200 []⟩,
        fun _ _ _ => HttpResult.resp 200 ⟨"X", 1⟩⟩
      "QQ-9" "Error: No project found with identifier QQ"
      rfl rfl (by decide) rfl rfl).1⟩

/-- Claim C2: (a) a well-formed-UUID `issue_id` (the code's lowercase
8-4-4-4-12 pattern) is used directly — the resolver is never invoked, so
the trace is empty or exactly one PATCH addressed with the given
project_id and issue_id; (b) a non-UUID `issue_id` is delegated to the
resolver, and on successful resolution the PATCH is addressed with the
resolved project and issue ids; (c) on failed resolution the returned
error names the unresolved code and no PATCH is issued. -/
theorem c2_uuid_detection_and_delegation :
    (∀ (kvs : List (String × Json)) (env : UpdateEnv) (u : String),
      jget kvs "issue_id" = some (Json.str u) → isUUIDre u = true →
      ((update_plane_issue (ParamsInput.parsed kvs) env).2 = [] ∨
       ∃ body, (update_plane_issue (ParamsInput.parsed kvs) env).2 =
         [Req.patchIssue (pyStr (jgetD kvs "project_id" Json.null)) u body])) ∧
    (∀ (kvs : List (String × Json)) (env : UpdateEnv) (u iid pid nm : String)
        (st : Option String),
      getTruthy kvs "project_id" = true →
      jget kvs "issue_id" = some (Json.str u) → ¬ u = "" →
      isUUIDre u = false →
      (resolveIssueCode u env.resolver).1 = ResolveOutcome.ok iid pid nm st →
      ¬ updateData kvs = [] →
      (update_plane_issue (ParamsInput.parsed kvs) env).2 =
        (resolveIssueCode u env.resolver).2 ++
          [Req.patchIssue pid iid (updateData kvs)]) ∧
    (∀ (kvs : List (String × Json)) (env : UpdateEnv) (u m : String),
      getTruthy kvs "project_id" = true →
      jget kvs "issue_id" = some (Json.str u) → ¬ u = "" →
      isUUIDre u = false →
      (resolveIssueCode u env.resolver).1 = ResolveOutcome.err m →
      (update_plane_issue (ParamsInput.parsed kvs) env).1 =
        errMsg ("Could not resolve issue code " ++ u ++ " to a UUID.  Details: " ++ m) ∧
      (update_plane_issue (ParamsInput.parsed kvs) env).2.all
        (fun r => !r.isPatchIssue) = true) := by
  refine ⟨?_, ?_, ?_⟩
  · intro kvs env u hi hu
    cases hpt : getTruthy kvs "project_id" with
    | false =>
      left
      simp only [update_plane_issue, hpt]
      rfl
    | true =>
      cases hit : getTruthy kvs "issue_id" with
      | false =>
        left
        simp only [update_plane_issue, hpt, hit]
        rfl
      | true =>
        simp only [update_plane_issue, hpt, hit, hi, hu]
        cases hud : (updateData kvs).isEmpty with
        | true =>
          left
          simp only [updateGo, hud]
          rfl
        | false =>
          right
          refine ⟨updateData kvs, ?_⟩
          simp only [updateGo, hud]
          repeat' split
          all_goals first | rfl | simp_all
  · intro kvs env u iid pid nm st h1 hi hne huu hres hud
    have h2 : getTruthy kvs "issue_id" = true := by
      rw [getTruthy_of_some kvs _ _ hi]; exact truthy_str_of_ne u hne
    have hud' : (updateData kvs).isEmpty = false := by
      cases hcase : updateData kvs with
      | nil => exact absurd hcase hud
      | cons a t => rfl
    simp only [update_plane_issue, h1, h2, hi, huu, hres, updateGo,
      updateData_setKey2, hud']
    repeat' split
    all_goals first | rfl | simp_all
  · intro kvs env u m h1 hi hne huu hres
    have h2 : getTruthy kvs "issue_id" = true := by
      rw [getTruthy_of_some kvs _ _ hi]; exact truthy_str_of_ne u hne
    have hmain : update_plane_issue (ParamsInput.parsed kvs) env =
        (errMsg ("Could not resolve issue code " ++ u ++ " to a UUID.  Details: " ++ m),
         (resolveIssueCode u env.resolver).2) := by
      simp only [update_plane_issue, h1, h2, hi, huu, hres]
      rfl
    rw [hmain]
    exact ⟨rfl, all_and_left _ _ _ (resolve_trace_safe u env.resolver)⟩

/-- Witness for claim C2's theorem: one instance of each of its three
parts at concrete inputs. -/
theorem c2_uuid_detection_and_delegation_witness :
    ((update_plane_issue (ParamsInput.parsed
          [("project_id", Json.str "zz"),
           ("issue_id", Json.str "aaaaaaaa-bbbb-cccc-dddd-eeeeeeeeeeee"),
           ("name", Json.str "New")])
        ⟨⟨HttpResult.resp 200 [], fun _ => HttpResult.resp 200 []⟩,
          fun _ _ _ => HttpResult.resp 200 ⟨"X", 1⟩⟩).2 = [] ∨
      ∃ body, (update_plane_issue (ParamsInput.parsed
          [("project_id", Json.str "zz"),
           ("issue_id", Json.str "aaaaaaaa-bbbb-cccc-dddd-eeeeeeeeeeee"),
           ("name", Json.str "New")])
        ⟨⟨HttpResult.resp 200 [], fun _ => HttpResult.resp 200 []⟩,
          fun _ _ _ => HttpResult.resp 200 ⟨"X", 1⟩⟩).2 =
        [Req.patchIssue
          (pyStr (jgetD [("project_id", Json.str "zz"),
            ("issue_id", Json.str "aaaaaaaa-bbbb-cccc-dddd-eeeeeeeeeeee"),
            ("name", Json.str "New")] "project_id" Json.null))
          "aaaaaaaa-bbbb-cccc-dddd-eeeeeeeeeeee" body]) ∧
    (update_plane_issue (ParamsInput.parsed
          [("project_id", Json.str "zz"), ("issue_id", Json.str "CLT-37"),
           ("name", Json.str "New")])
        ⟨⟨HttpResult.resp 200 [⟨"p1", some "clt"⟩],
           fun _ => HttpResult.resp 200 [⟨"i1", some 37, "Fix", some "s1"⟩]⟩,
          fun _ _ _ => HttpResult.resp 200 ⟨"Fix", 37⟩⟩).2 =
      (resolveIssueCode "CLT-37"
          ⟨HttpResult.resp 200 [⟨"p1", some "clt"⟩],
           fun _ => HttpResult.resp 200 [⟨"i1", some 37, "Fix", some "s1"⟩]⟩).2 ++
        [Req.patchIssue "p1" "i1"
          (updateData [("project_id", Json.str "zz"), ("issue_id", Json.str "CLT-37"),
            ("name", Json.str "New")])] ∧
    (update_plane_issue (ParamsInput.parsed
          [("project_id", Json.str "zz"), ("issue_id", Json.str "QQ-9"),
           ("name", Json.str "New")])
        ⟨⟨HttpResult.resp 200 [], fun _ => HttpResult.resp 200 []⟩,
          fun _ _ _ => HttpResult.resp 200 ⟨"X", 1⟩⟩).1 =
      errMsg ("Could not resolve issue code " ++ "QQ-9" ++ " to a UUID.  Details: " ++
        "Error: No project found with identifier QQ") :=
  ⟨c2_uuid_detection_and_delegation.1
      [("project_id", Json.str "zz"),
       ("issue_id", Json.str "aaaaaaaa-bbbb-cccc-dddd-eeeeeeeeeeee"),
       ("name", Json.str "New")]
      ⟨⟨HttpResult.resp 200 [], fun _ => HttpResult.resp 200 []⟩,
        fun _ _ _ => HttpResult.resp 200 ⟨"X", 1⟩⟩
      "aaaaaaaa-bbbb-cccc-dddd-eeeeeeeeeeee" rfl rfl,
   c2_uuid_detection_and_delegation.2.1
      [("project_id", Json.str "zz"), ("issue_id", Json.str "CLT-37"),
       ("name", Json.str "New")]
      ⟨⟨HttpResult.resp 200 [⟨"p1", some "clt"⟩],
         fun _ => HttpResult.resp 200 [⟨"i1", some 37, "Fix", some "s1"⟩]⟩,
        fun _ _ _ => HttpResult.resp 200 ⟨"Fix", 37⟩⟩
      "CLT-37" "i1" "p1" "Fix" (some "s1") rfl rfl (by decide) rfl rfl
      (fun h => List.noConfusion h),
   (c2_uuid_detection_and_delegation.2.2
      [("project_id", Json.str "zz"), ("issue_id", Json.str "QQ-9"),
       ("name", Json.str "New")]
      ⟨⟨HttpResult.resp 200 [], fun _ => HttpResult.resp 200 []⟩,
        fun _ _ _ => HttpResult.resp 200 ⟨"X", 1⟩⟩
      "QQ-9" "Error: No project found with identifier QQ"
      rfl rfl (by decide) rfl rfl).1⟩

theorem applyIssueFilters_eq_filter (params : List (String × Json)) (issues : List LIssue) :
    applyIssueFilters params issues = issues.filter (issuePasses params) := by
  unfold applyIssueFilters issuePasses
  cases h1 : getTruthy params "state_id" <;>
  cases h2 : getTruthy params "priority" <;>
  cases h3 : getTruthy params "assignee_id" <;>
  cases h4 : getTruthy params "label_id" <;>
    simp [List.filter_filter, Bool.and_assoc, Bool.and_comm, Bool.and_left_comm]

theorem list_plane_issues_eval (kvs : List (String × Json)) (name : String)
    (issues : List LIssue) (h1 : getTruthy kvs "project_id" = true) :
    list_plane_issues (ParamsInput.parsed kvs)
      ⟨fun _ => HttpResult.resp 200 ⟨name⟩, fun _ => HttpResult.resp 200 issues⟩ =
    (if issues.isEmpty then
      ("No issues found in project " ++ name,
       [Req.getProject (pyStr (jgetD kvs "project_id" Json.null)),
        Req.getIssues (pyStr (jgetD kvs "project_id" Json.null))])
     else if (applyIssueFilters kvs issues).isEmpty then
      ("No issues match the specified filters",
       [Req.getProject (pyStr (jgetD kvs "project_id" Json.null)),
        Req.getIssues (pyStr (jgetD kvs "project_id" Json.null))])
     else
      (String.intercalate "\n"
        (("Issues in " ++ name ++ ":") :: (applyIssueFilters kvs issues).map issueLine),
       [Req.getProject (pyStr (jgetD kvs "project_id" Json.null)),
        Req.getIssues (pyStr (jgetD kvs "project_id" Json.null))])) := by
  simp only [list_plane_issues, h1]
  rfl

theorem string_data_append (a b : String) : (a ++ b).data = a.data ++ b.data := rfl

/-- Claim C8: with a priority filter supplied, the listing displays
exactly the fetched issues that pass all supplied filters (their logical
AND, `issuePasses`), and every displayed issue's priority equals the
filter value; a non-empty fetch in which no issue survives the filters
yields "No issues match the specified filters", which differs from the
zero-issues message "No issues found in project <name>" for every project
name. -/
theorem c8_priority_filter (kvs : List (String × Json)) (name : String)
    (issues : List LIssue) (pr : String)
    (h1 : getTruthy kvs "project_id" = true)
    (hp : jget kvs "priority" = some (Json.str pr)) (hpr : ¬ pr = "") :
    (issues = [] →
      (list_plane_issues (ParamsInput.parsed kvs)
        ⟨fun _ => HttpResult.resp 200 ⟨name⟩, fun _ => HttpResult.resp 200 issues⟩).1 =
        "No issues found in project " ++ name) ∧
    (¬ issues = [] → issues.filter (issuePasses kvs) = [] →
      (list_plane_issues (ParamsInput.parsed kvs)
        ⟨fun _ => HttpResult.resp 200 ⟨name⟩, fun _ => HttpResult.resp 200 issues⟩).1 =
        "No issues match the specified filters") ∧
    (¬ issues = [] → ¬ issues.filter (issuePasses kvs) = [] →
      (list_plane_issues (ParamsInput.parsed kvs)
        ⟨fun _ => HttpResult.resp 200 ⟨name⟩, fun _ => HttpResult.resp 200 issues⟩).1 =
        String.intercalate "\n"
          (("Issues in " ++ name ++ ":") ::
            (issues.filter (issuePasses kvs)).map issueLine)) ∧
    (∀ i, i ∈ issues.filter (issuePasses kvs) → i.priority = pr) ∧
    (∀ nm : String,
      ¬ ("No issues found in project " ++ nm = "No issues match the specified filters")) := by
  have heval := list_plane_issues_eval kvs name issues h1
  refine ⟨?_, ?_, ?_, ?_, ?_⟩
  · intro hnil
    subst hnil
    rw [heval]
    rfl
  · intro hne hf
    have he : issues.isEmpty = false := by
      cases issues with
      | nil => exact absurd rfl hne
      | cons a t => rfl
    have haf : (applyIssueFilters kvs issues).isEmpty = true := by
      rw [applyIssueFilters_eq_filter, hf]; rfl
    rw [heval, he, haf]
    rfl
  · intro hne hf
    have he : issues.isEmpty = false := by
      cases issues with
      | nil => exact absurd rfl hne
      | cons a t => rfl
    have haf : (applyIssueFilters kvs issues).isEmpty = false := by
      rw [applyIssueFilters_eq_filter]
      cases hc : issues.filter (issuePasses kvs) with
      | nil => exact absurd hc hf
      | cons a t => rfl
    rw [heval, he, haf, applyIssueFilters_eq_filter]
    rfl
  · intro i hi
    have hg : getTruthy kvs "priority" = true := by
      rw [getTruthy_of_some kvs _ _ hp]; exact truthy_str_of_ne pr hpr
    have hd : jgetD kvs "priority" Json.null = Json.str pr := by simp [jgetD, hp]
    have hpass := (List.mem_filter.mp hi).2
    simp only [issuePasses, hg, hd, Bool.not_true, Bool.false_or,
      Bool.and_eq_true] at hpass
    have hb : (pr == i.priority) = true := hpass.1.1.2
    exact (eq_of_beq hb).symm
  · intro nm h
    have h2 : "No issues found in project ".data ++ nm.data =
        "No issues match the specified filters".data := by
      rw [← string_data_append, h]
    have hpre : "No issues found in project ".data <+:
        "No issues match the specified filters".data := ⟨nm.data, h2⟩
    have hnot : ¬ ("No issues found in project ".data <+:
        "No issues match the specified filters".data) := by decide
    exact absurd hpre hnot

/-- Witness for claim C8's theorem: filtering two fetched issues by
priority "high" lists exactly the matching one; filtering by "urgent"
leaves none and yields the no-match message. -/
theorem c8_priority_filter_witness :
    (list_plane_issues (ParamsInput.parsed
        [("project_id", Json.str "P1"), ("priority", Json.str "high")])
      ⟨fun _ => HttpResult.resp 200 ⟨"Proj X"⟩,
       fun _ => HttpResult.resp 200
         [⟨"Bug Fix", 1, "high", some "s1", [], [], some "In Progress"⟩,
          ⟨"Other", 2, "none", none, [], [], none⟩]⟩).1 =
      String.intercalate "\n"
        (("Issues in " ++ "Proj X" ++ ":") ::
          (List.filter (issuePasses
              [("project_id", Json.str "P1"), ("priority", Json.str "high")])
            [⟨"Bug Fix", 1, "high", some "s1", [], [], some "In Progress"⟩,
             ⟨"Other", 2, "none", none, [], [], none⟩]).map issueLine) ∧
    (list_plane_issues (ParamsInput.parsed
        [("project_id", Json.str "P1"), ("priority", Json.str "urgent")])
      ⟨fun _ => HttpResult.resp 200 ⟨"Proj X"⟩,
       fun _ => HttpResult.resp 200
         [⟨"Bug Fix", 1, "high", some "s1", [], [], some "In Progress"⟩,
          ⟨"Other", 2, "none", none, [], [], none⟩]⟩).1 =
      "No issues match the specified filters" :=
  ⟨(c8_priority_filter
      [("project_id", Json.str "P1"), ("priority", Json.str "high")] "Proj X"
      [⟨"Bug Fix", 1, "high", some "s1", [], [], some "In Progress"⟩,
       ⟨"Other", 2, "none", none, [], [], none⟩] "high"
      rfl rfl (by decide)).2.2.1
      (fun h => List.noConfusion h) (fun h => List.noConfusion h),
   (c8_priority_filter
      [("project_id", Json.str "P1"), ("priority", Json.str "urgent")] "Proj X"
      [⟨"Bug Fix", 1, "high", some "s1", [], [], some "In Progress"⟩,
       ⟨"Other", 2, "none", none, [], [], none⟩] "urgent"
      rfl rfl (by decide)).2.1
      (fun h => List.noConfusion h) rfl⟩

theorem jget_mergeOptField_other (params acc : List (String × Json)) (g f : String)
    (h : ¬ f = g) : jget (mergeOptField params acc g) f = jget acc f := by
  unfold mergeOptField
  cases hT : getTruthy params g with
  | true => simp only [hT, ite_true]; exact jget_setKey_other acc g f _ h
  | false => simp only [hT, Bool.false_eq_true, ite_false]

theorem foldl_merge_not_mem (params : List (String × Json)) (fields : List String)
    (acc : List (String × Json)) (f : String) (hf : ¬ f ∈ fields) :
    jget (fields.foldl (mergeOptField params) acc) f = jget acc f := by
  induction fields generalizing acc with
  | nil => rfl
  | cons g gs ih =>
    have hfg : ¬ f = g := fun he => hf (he ▸ List.mem_cons_self g gs)
    have hfs : ¬ f ∈ gs := fun hm => hf (List.mem_cons_of_mem _ hm)
    rw [List.foldl_cons, ih (mergeOptField params acc g) hfs,
      jget_mergeOptField_other params acc g f hfg]

theorem foldl_merge_mem (params : List (String × Json)) (fields : List String)
    (acc : List (String × Json)) (f : String) (hf : f ∈ fields)
    (hnd : fields.Nodup) :
    jget (fields.foldl (mergeOptField params) acc) f =
      (if getTruthy params f then some (jgetD params f Json.null) else jget acc f) := by
  induction fields generalizing acc with
  | nil => exact absurd hf (List.not_mem_nil f)
  | cons g gs ih =>
    rw [List.foldl_cons]
    by_cases hfg : f = g
    · subst hfg
      have hfs : ¬ f ∈ gs := (List.nodup_cons.mp hnd).1
      rw [foldl_merge_not_mem params gs _ f hfs]
      unfold mergeOptField
      cases hT : getTruthy params f with
      | true => simp only [hT, ite_true]; exact jget_setKey_same acc f _
      | false => simp only [hT, Bool.false_eq_true, ite_false]
    · have hfs : f ∈ gs := by
        rcases List.mem_cons.mp hf with h | h
        · exact absurd h hfg
        · exact h
      have hnd2 : gs.Nodup := (List.nodup_cons.mp hnd).2
      rw [ih (mergeOptField params acc g) hfs hnd2]
      cases hT : getTruthy params f with
      | true => simp only [hT, ite_true]
      | false =>
        simp only [hT, Bool.false_eq_true, ite_false]
        exact jget_mergeOptField_other params acc g f hfg

/-- Claim C6, counterexample: `update_plane_issue` does not truthiness-filter
its update fields — a supplied empty-string "name" is included in the
outgoing PATCH body, where the claim says empty-valued optional keys are
omitted. -/
theorem c6_empty_value_included_counterexample :
    (update_plane_issue (ParamsInput.parsed
        [("project_id", Json.str "aaaaaaaa-bbbb-cccc-dddd-eeeeeeeeeeee"),
         ("issue_id", Json.str "11111111-2222-3333-4444-555555555555"),
         ("name", Json.str "")])
      ⟨⟨HttpResult.resp 200 [], fun _ => HttpResult.resp 200 []⟩,
        fun _ _ _ => HttpResult.resp 200 ⟨"X", 1⟩⟩).2 =
      [Req.patchIssue "aaaaaaaa-bbbb-cccc-dddd-eeeeeeeeeeee"
        "11111111-2222-3333-4444-555555555555" [("name", Json.str "")]] := rfl

/-- Claim C6 (amended): `create_plane_issue` merges each of its optional
keys into the outgoing body exactly when it is present and truthy (with
the supplied value), and its POST body is exactly `createIssueData`;
`update_plane_issue`, by contrast, carries every supplied key other than
`project_id` and `issue_id` into the PATCH body regardless of its value
(both required keys are removed), with `description_html` derived
whenever `description` is present. -/
theorem c6_optional_field_merge :
    (∀ (kvs : List (String × Json)) (f : String), f ∈ createOptionalFields →
      jget (createIssueData kvs) f =
        (if getTruthy kvs f then some (jgetD kvs f Json.null) else none)) ∧
    (∀ (kvs : List (String × Json)) (env : CreateIssueEnv),
      getTruthy kvs "project_id" = true → getTruthy kvs "name" = true →
      (create_plane_issue (ParamsInput.parsed kvs) env).2 =
        [Req.postIssue (pyStr (jgetD kvs "project_id" Json.null)) (createIssueData kvs)]) ∧
    (∀ (kvs : List (String × Json)) (k : String),
      ¬ k = "project_id" → ¬ k = "issue_id" → ¬ k = "description_html" →
      jget (updateData kvs) k = jget kvs k) ∧
    (∀ kvs : List (String × Json),
      jget (updateData kvs) "project_id" = none ∧
      jget (updateData kvs) "issue_id" = none) ∧
    (∀ (kvs : List (String × Json)) (d : Json), jget kvs "description" = some d →
      jget (updateData kvs) "description_html" =
        some (Json.str ("<p>" ++ pyStr d ++ "</p>"))) := by
  refine ⟨?_, ?_, ?_, ?_, ?_⟩
  · intro kvs f hf
    unfold createIssueData
    rw [foldl_merge_mem kvs createOptionalFields (createBaseData kvs) f hf (by decide)]
    have hbase : jget (createBaseData kvs) f = none := by
      fin_cases hf <;> rfl
    rw [hbase]
  · intro kvs env h1 h2
    simp only [create_plane_issue, h1, h2]
    repeat' split
    all_goals first | rfl | simp_all
  · intro kvs k hk1 hk2 hk3
    unfold updateData updateBody
    have hb : jget (eraseKey (eraseKey kvs "project_id") "issue_id") k = jget kvs k := by
      rw [jget_eraseKey_other _ _ _ hk2, jget_eraseKey_other _ _ _ hk1]
    cases hd : jget (eraseKey (eraseKey kvs "project_id") "issue_id") "description" with
    | none => exact hb
    | some d => rw [jget_setKey_other _ _ _ _ hk3]; exact hb
  · intro kvs
    have hp : jget (eraseKey (eraseKey kvs "project_id") "issue_id") "project_id" = none := by
      rw [jget_eraseKey_other _ _ _ (by decide : ¬ ("project_id" : String) = "issue_id")]
      exact jget_eraseKey_same kvs "project_id"
    have hi : jget (eraseKey (eraseKey kvs "project_id") "issue_id") "issue_id" = none :=
      jget_eraseKey_same _ "issue_id"
    unfold updateData updateBody
    cases hd : jget (eraseKey (eraseKey kvs "project_id") "issue_id") "description" with
    | none => exact ⟨hp, hi⟩
    | some d =>
      constructor
      · rw [jget_setKey_other _ _ _ _ (by decide : ¬ ("project_id" : String) = "description_html")]
        exact hp
      · rw [jget_setKey_other _ _ _ _ (by decide : ¬ ("issue_id" : String) = "description_html")]
        exact hi
  · intro kvs d hd
    unfold updateData updateBody
    have hb : jget (eraseKey (eraseKey kvs "project_id") "issue_id") "description" = some d := by
      rw [jget_eraseKey_other _ _ _ (by decide : ¬ ("description" : String) = "issue_id"),
        jget_eraseKey_other _ _ _ (by decide : ¬ ("description" : String) = "project_id")]
      exact hd
    rw [hb]
    exact jget_setKey_same _ "description_html" _

/-- Witness for claim C6's amended theorem: a truthy optional key is
merged with its value, an empty-string optional key is omitted by create,
and update keeps an empty-string field in its body. -/
theorem c6_optional_field_merge_witness :
    jget (createIssueData
        [("project_id", Json.str "P1"), ("name", Json.str "Bug"),
         ("state_id", Json.str "s1"), ("start_date", Json.str "")]) "state_id" =
      some (Json.str "s1") ∧
    jget (createIssueData
        [("project_id", Json.str "P1"), ("name", Json.str "Bug"),
         ("state_id", Json.str "s1"), ("start_date", Json.str "")]) "start_date" =
      none ∧
    jget (updateData
        [("project_id", Json.str "aaaaaaaa-bbbb-cccc-dddd-eeeeeeeeeeee"),
         ("issue_id", Json.str "11111111-2222-3333-4444-555555555555"),
         ("name", Json.str "")]) "name" =
      some (Json.str "") :=
  ⟨c6_optional_field_merge.1
      [("project_id", Json.str "P1"), ("name", Json.str "Bug"),
       ("state_id", Json.str "s1"), ("start_date", Json.str "")]
      "state_id" (by decide),
   c6_optional_field_merge.1
      [("project_id", Json.str "P1"), ("name", Json.str "Bug"),
       ("state_id", Json.str "s1"), ("start_date", Json.str "")]
      "start_date" (by decide),
   c6_optional_field_merge.2.2.1
      [("project_id", Json.str "aaaaaaaa-bbbb-cccc-dddd-eeeeeeeeeeee"),
       ("issue_id", Json.str "11111111-2222-3333-4444-555555555555"),
       ("name", Json.str "")]
      "name" (by decide) (by decide) (by decide)⟩

theorem hasStrPre_appendL (p a : String) : hasStrPre p (p ++ a) := ⟨a, rfl⟩

theorem hasStrPre_extend (p r b : String) (h : hasStrPre p r) :
    hasStrPre p (r ++ b) := by
  rcases h with ⟨t, ht⟩
  exact ⟨t ++ b, by rw [ht, strAppendAssoc]⟩

theorem hasStrPre_intercalate_go (p sep : String) :
    ∀ (l : List String) (acc : String), hasStrPre p acc →
      hasStrPre p (String.intercalate.go acc sep l)
  | [], acc, h => h
  | a :: as1, acc, h =>
    hasStrPre_intercalate_go p sep as1 (acc ++ sep ++ a)
      (hasStrPre_extend _ _ _ (hasStrPre_extend _ _ _ h))

theorem hasStrPre_intercalate_cons (p sep hd : String) (tl : List String)
    (h : hasStrPre p hd) : hasStrPre p (String.intercalate sep (hd :: tl)) :=
  hasStrPre_intercalate_go p sep tl hd h

theorem resolve_outcome_shape (c : String) (env : ResolverEnv) :
    (∃ iid pid nm st, (resolveIssueCode c env).1 = ResolveOutcome.ok iid pid nm st) ∨
    (∃ t, (resolveIssueCode c env).1 = ResolveOutcome.err (errMsg t)) := by
  unfold resolveIssueCode
  repeat' split
  all_goals first
    | exact Or.inl ⟨_, _, _, _, rfl⟩
    | exact Or.inr ⟨_, rfl⟩

theorem get_plane_issue_id_shape (kvs : List (String × Json)) (env : ResolverEnv) :
    (∃ t, get_plane_issue_id (ParamsInput.parsed kvs) env = (errMsg t, [])) ∨
    (∃ s, get_plane_issue_id (ParamsInput.parsed kvs) env =
      (renderResolved (resolveIssueCode s env).1, (resolveIssueCode s env).2)) := by
  simp only [get_plane_issue_id]
  repeat' split
  all_goals first
    | exact Or.inl ⟨_, rfl⟩
    | exact Or.inr ⟨_, rfl⟩

/-- Claim C3: each of the seven operations is a total function of its
input and of the modelled HTTP layer's responses (error statuses,
transport failures and success bodies), and its result string is either
prefixed with "Error: " or has one of the operation's success shapes —
the resolver's success shape being its JSON payload. -/
theorem c3_total_and_error_prefixed :
    (∀ (inp : ParamsInput) (env : ResolverEnv),
      hasStrPre "Error: " (get_plane_issue_id inp env).1 ∨
      hasStrPre "\x7b" (get_plane_issue_id inp env).1) ∧
    (∀ (inp : ParamsInput) (env : CreateProjectEnv),
      hasStrPre "Error: " (create_plane_project inp env).1 ∨
      hasStrPre "Project created: " (create_plane_project inp env).1) ∧
    (∀ (inp : ParamsInput) (env : DeleteEnv),
      hasStrPre "Error: " (delete_plane_project inp env).1 ∨
      hasStrPre "Project deleted successfully: " (delete_plane_project inp env).1) ∧
    (∀ (inp : ParamsInput) (env : ListProjectsEnv),
      hasStrPre "Error: " (list_plane_projects inp env).1 ∨
      hasStrPre "Projects:\n" (list_plane_projects inp env).1) ∧
    (∀ (inp : ParamsInput) (env : CreateIssueEnv),
      hasStrPre "Error: " (create_plane_issue inp env).1 ∨
      hasStrPre "Issue created: " (create_plane_issue inp env).1) ∧
    (∀ (inp : ParamsInput) (env : ListIssuesEnv),
      hasStrPre "Error: " (list_plane_issues inp env).1 ∨
      hasStrPre "No issues found in project " (list_plane_issues inp env).1 ∨
      (list_plane_issues inp env).1 = "No issues match the specified filters" ∨
      hasStrPre "Issues in " (list_plane_issues inp env).1) ∧
    (∀ (inp : ParamsInput) (env : UpdateEnv),
      hasStrPre "Error: " (update_plane_issue inp env).1 ∨
      hasStrPre "Issue updated: " (update_plane_issue inp env).1) := by
  refine ⟨?_, ?_, ?_, ?_, ?_, ?_, ?_⟩
  · intro inp env
    cases inp with
    | malformed => exact Or.inl ⟨_, rfl⟩
    | parsed kvs =>
      rcases get_plane_issue_id_shape kvs env with ⟨t, heq⟩ | ⟨s, heq⟩
      · rw [heq]
        exact Or.inl ⟨t, rfl⟩
      · rw [heq]
        rcases resolve_outcome_shape s env with ⟨iid, pid, nm, st, hok⟩ | ⟨t, herr⟩
        · refine Or.inr ?_
          rw [hok]
          unfold renderResolved
          cases st with
          | some s2 =>
            repeat (apply hasStrPre_extend)
            exact ⟨"\"issue_id\": \"", rfl⟩
          | none =>
            repeat (apply hasStrPre_extend)
            exact ⟨"\"issue_id\": \"", rfl⟩
        · refine Or.inl ?_
          rw [herr]
          exact ⟨t, rfl⟩
  · intro inp env
    cases inp with
    | malformed => exact Or.inl ⟨_, rfl⟩
    | parsed kvs =>
      simp only [create_plane_project]
      repeat' split
      all_goals first
        | exact Or.inl ⟨_, rfl⟩
        | (refine Or.inr ?_; (repeat (apply hasStrPre_extend)); exact ⟨"", rfl⟩)
  · intro inp env
    cases inp with
    | malformed => exact Or.inl ⟨_, rfl⟩
    | parsed kvs =>
      simp only [delete_plane_project]
      repeat' split
      all_goals first
        | exact Or.inl ⟨_, rfl⟩
        | (refine Or.inr ?_; (repeat (apply hasStrPre_extend)); exact ⟨"", rfl⟩)
  · intro inp env
    simp only [list_plane_projects]
    repeat' split
    all_goals first
      | exact Or.inl ⟨_, rfl⟩
      | (refine Or.inr ?_; (repeat (apply hasStrPre_extend)); exact ⟨"", rfl⟩)
  · intro inp env
    cases inp with
    | malformed => exact Or.inl ⟨_, rfl⟩
    | parsed kvs =>
      simp only [create_plane_issue]
      repeat' split
      all_goals first
        | exact Or.inl ⟨_, rfl⟩
        | (refine Or.inr ?_; (repeat (apply hasStrPre_extend)); exact ⟨"", rfl⟩)
  · intro inp env
    cases inp with
    | malformed => exact Or.inl ⟨_, rfl⟩
    | parsed kvs =>
      simp only [list_plane_issues]
      repeat' split
      all_goals first
        | exact Or.inl ⟨_, rfl⟩
        | exact Or.inr (Or.inr (Or.inl rfl))
        | (refine Or.inr (Or.inl ?_); (repeat (apply hasStrPre_extend)); exact ⟨"", rfl⟩)
        | (refine Or.inr (Or.inr (Or.inr ?_)); apply hasStrPre_intercalate_cons; (repeat (apply hasStrPre_extend)); exact ⟨"", rfl⟩)
  · intro inp env
    cases inp with
    | malformed => exact Or.inl ⟨_, rfl⟩
    | parsed kvs =>
      simp only [update_plane_issue, updateGo]
      repeat' split
      all_goals first
        | exact Or.inl ⟨_, rfl⟩
        | (refine Or.inr ?_; (repeat (apply hasStrPre_extend)); exact ⟨"", rfl⟩)
